import Mathlib

/-!
Verification development for the Book-Trading-Club repository.

The definitions below are a shallow embedding of the backend trade engine
(`backend/src/controllers/tradeController.ts`, second revision of the file:
`createTrade`, `getUserTrades` aside, `markTradesAsSeen`, `updateTradeStatus`,
`completeTrade`), of the `Trade` Mongoose model with its `pre('save')`
availability hook (first revision, the one carrying `isSeen`), of the `Book`
model, and of the frontend Zustand store's trade actions
(`frontend/src/store/bookStore.ts`: `proposeTrade`, `updateTradeStatus`).

Mongo ObjectIds are modelled as `Nat`. The database is a pair of lists of
records plus a fresh-id counter. Controller responses
`res.status(code).json({ message })` are modelled as an `ApiErr` value
carrying the HTTP status code and the message string; success responses carry
the returned payload. `findByIdAndUpdate` on a missing id is a no-op, as in
Mongoose. `Promise.all` pairs of independent single-document updates are
sequenced left to right.
-/

/-- The `TradeStatus` union type of the Trade model:
`'pending' | 'accepted' | 'rejected' | 'completed' | 'cancelled'`. -/
inductive TradeStatus where
  | pending
  | accepted
  | rejected
  | completed
  | cancelled
deriving DecidableEq

/-- The `Book` document (`backend/src/models/Book.ts`): fields relevant to the
trade engine (`owner`, `isAvailable`) plus the descriptive fields. Optional
metadata (image, isbn, genre, publishedYear) plays no role in any operation
modelled here and is omitted. -/
structure Book where
  id : Nat
  title : String
  author : String
  owner : Nat
  isAvailable : Bool
deriving DecidableEq

/-- The `Trade` document (`backend/src/models/Trade.ts`, first revision, the
one with `isSeen`). `status` defaults to `pending` and `isSeen` to `false` at
the schema level; the controller passes `isSeen: false` explicitly. -/
structure Trade where
  id : Nat
  initiator : Nat
  receiver : Nat
  bookOffered : Nat
  bookRequested : Nat
  status : TradeStatus
  message : Option String
  isSeen : Bool
deriving DecidableEq

/-- The persistent store the controllers read and write: the `books` and
`trades` collections, plus a counter supplying fresh ids for `Trade.create`. -/
structure DB where
  books : List Book
  trades : List Trade
  nextTradeId : Nat
deriving DecidableEq

/-- An error response `res.status(status).json({ message })`. -/
structure ApiErr where
  status : Nat
  message : String
deriving DecidableEq

instance {ε α : Type} [DecidableEq ε] [DecidableEq α] : DecidableEq (Except ε α)
  | .ok a, .ok b =>
    if h : a = b then .isTrue (congrArg Except.ok h)
    else .isFalse fun hc => h (Except.ok.inj hc)
  | .ok _, .error _ => .isFalse fun hc => Except.noConfusion hc
  | .error _, .ok _ => .isFalse fun hc => Except.noConfusion hc
  | .error e, .error e2 =>
    if h : e = e2 then .isTrue (congrArg Except.error h)
    else .isFalse fun hc => h (Except.error.inj hc)

/-- `Book.findById`. -/
def findBook (db : DB) (id : Nat) : Option Book :=
  db.books.find? fun b => b.id = id

/-- `Trade.findById`. -/
def findTrade (db : DB) (id : Nat) : Option Trade :=
  db.trades.find? fun t => t.id = id

/-- `Book.findByIdAndUpdate book f`: applies the field update `f` to the book
with the given id; a no-op when no such book exists (Mongoose returns `null`
and updates nothing). -/
def findByIdAndUpdateBook (db : DB) (id : Nat) (f : Book → Book) : DB :=
  { db with books := db.books.map fun b => if b.id = id then f b else b }

/-- `trade.save()` on an existing document: writes the document back over the
stored record with the same id. The `pre('save')` hook returns immediately for
non-new documents, so no validation runs here. -/
def saveTrade (db : DB) (t : Trade) : DB :=
  { db with trades := db.trades.map fun t0 => if t0.id = t.id then t else t0 }

/-- The `tradeSchema.pre('save')` middleware for a NEW document
(`backend/src/models/Trade.ts`, first revision, lines 511-539 of the bundled
sources): fetches both books; throws `Error('One or both books not found')`
when either is missing, `Error('One or both books are not available for
trade')` when either has `isAvailable = false`. The controller's catch block
maps any thrown error whose `name` is not `'ValidationError'` to a 500
response carrying `error.message`; these plain `Error`s have name `'Error'`,
hence status 500. -/
def tradePreSaveNewValidation (db : DB) (bookOffered bookRequested : Nat) :
    Option ApiErr :=
  match findBook db bookOffered, findBook db bookRequested with
  | some offeredBook, some requestedBook =>
      if offeredBook.isAvailable = false ∨ requestedBook.isAvailable = false then
        some ⟨500, "One or both books are not available for trade"⟩
      else
        none
  | _, _ => some ⟨500, "One or both books not found"⟩

/-- Converts the `status` string of a request body to the `TradeStatus` enum
value the schema stores (the schema's `enum` list). -/
def statusOfString (s : String) : Option TradeStatus :=
  if s = "pending" then some .pending
  else if s = "accepted" then some .accepted
  else if s = "rejected" then some .rejected
  else if s = "completed" then some .completed
  else if s = "cancelled" then some .cancelled
  else none

namespace TradeController

/-- `POST /api/trades` — `createTrade` (tradeController, second revision,
lines 180-217): body-field presence check (400), `Book.findById(bookRequested)`
(404 when missing), then `Trade.create` with `initiator = req.user._id`,
`receiver = requestedBook.owner`, `isSeen: false`, `status` defaulting to
`pending`; the model's pre-save hook validates existence and availability of
both books and its thrown errors surface as 500 responses. -/
def createTrade (db : DB) (userId : Nat) (bookOffered bookRequested : Option Nat)
    (message : Option String) : Except ApiErr Trade × DB :=
  match bookOffered, bookRequested with
  | some bo, some br =>
    match findBook db br with
    | none => (.error ⟨404, "Requested book not found"⟩, db)
    | some requestedBook =>
      match tradePreSaveNewValidation db bo br with
      | some e => (.error e, db)
      | none =>
        let newTrade : Trade :=
          { id := db.nextTradeId
            initiator := userId
            receiver := requestedBook.owner
            bookOffered := bo
            bookRequested := br
            status := .pending
            message := message
            isSeen := false }
        (.ok newTrade,
          { db with trades := db.trades ++ [newTrade],
                    nextTradeId := db.nextTradeId + 1 })
  | _, _ => (.error ⟨400, "Both bookOffered and bookRequested are required"⟩, db)

/-- The per-document effect of
`Trade.updateMany({ receiver: user, isSeen: false }, { isSeen: true })`:
documents matching the filter get `isSeen := true`, all others are kept. -/
def markSeenUpdate (userId : Nat) (t : Trade) : Trade :=
  if t.receiver = userId ∧ t.isSeen = false then { t with isSeen := true } else t

/-- `PUT /api/trades/mark-seen` — `markTradesAsSeen` (lines 246-263):
`Trade.updateMany({ receiver: user, isSeen: false }, { isSeen: true })`;
always responds with success, returning `modifiedCount`. -/
def markTradesAsSeen (db : DB) (userId : Nat) : Except ApiErr Nat × DB :=
  let modifiedCount :=
    db.trades.countP fun t => decide (t.receiver = userId ∧ t.isSeen = false)
  (.ok modifiedCount,
    { db with trades := db.trades.map (markSeenUpdate userId) })

/-- The `validStatuses` list of `updateTradeStatus`. -/
def validStatuses : List String := ["accepted", "rejected", "cancelled"]

/-- `PUT /api/trades/:id` — `updateTradeStatus` (lines 270-315): 400 when the
requested status string is not in `validStatuses`, 404 when the trade does not
exist, 403 when the caller is not the trade's receiver; when the status is
`accepted`, both referenced books are marked unavailable; then the trade's
`status` is set to the requested value and `isSeen` to `true`, and the trade
is saved. No check of the trade's current status and no availability check is
performed. -/
def updateTradeStatus (db : DB) (userId tradeId : Nat) (status : String) :
    Except ApiErr Trade × DB :=
  if ¬ status ∈ validStatuses then
    (.error ⟨400, "Status must be one of: accepted, rejected, cancelled"⟩, db)
  else
    match findTrade db tradeId with
    | none => (.error ⟨404, "Trade not found"⟩, db)
    | some trade =>
      if ¬ trade.receiver = userId then
        (.error ⟨403, "Not authorized to update this trade"⟩, db)
      else
        let db1 :=
          if status = "accepted" then
            findByIdAndUpdateBook
              (findByIdAndUpdateBook db trade.bookOffered
                fun b => { b with isAvailable := false })
              trade.bookRequested
              fun b => { b with isAvailable := false }
          else db
        let trade1 : Trade :=
          { trade with status := (statusOfString status).getD trade.status,
                       isSeen := true }
        (.ok trade1, saveTrade db1 trade1)

/-- `PUT /api/trades/:id/complete` — `completeTrade` (lines 322-370): 404 when
the trade does not exist, 403 when the caller is neither initiator nor
receiver, 400 (`'Trade must be accepted before completion'`) when the status
is not `accepted`; otherwise the trade is saved with status `completed`, then
`bookOffered` gets owner `receiver` and `bookRequested` gets owner
`initiator`, both with `isAvailable = true`. Returns the trade id. -/
def completeTrade (db : DB) (userId tradeId : Nat) : Except ApiErr Nat × DB :=
  match findTrade db tradeId with
  | none => (.error ⟨404, "Trade not found"⟩, db)
  | some trade =>
    if ¬ (userId = trade.initiator ∨ userId = trade.receiver) then
      (.error ⟨403, "Not authorized to complete this trade"⟩, db)
    else if ¬ trade.status = .accepted then
      (.error ⟨400, "Trade must be accepted before completion"⟩, db)
    else
      let trade1 : Trade := { trade with status := .completed }
      let db1 := saveTrade db trade1
      let db2 := findByIdAndUpdateBook db1 trade.bookOffered
        fun b => { b with owner := trade.receiver, isAvailable := true }
      let db3 := findByIdAndUpdateBook db2 trade.bookRequested
        fun b => { b with owner := trade.initiator, isAvailable := true }
      (.ok trade.id, db3)

end TradeController

/-- The frontend notification `type` values: the union of the
`NOTIFICATION_TYPES` constant lists found in the frontend sources
(`trade_proposal` in the list the store's `proposeTrade` draws from,
`trade_request` in the other revision and in the wire-message documentation). -/
inductive NotificationType where
  | trade_proposal
  | trade_request
  | trade_accepted
  | trade_rejected
  | trade_completed
  | system
deriving DecidableEq

/-- An in-app notification object appended by the frontend store. The
`crypto.randomUUID()` id and the `createdAt` timestamp are not modelled. -/
structure AppNotification where
  userId : Nat
  type : NotificationType
  message : String
  isRead : Bool
  relatedId : Option Nat
deriving DecidableEq

/-- The slice of the frontend Zustand store state touched by the trade
actions. -/
structure StoreState where
  trades : List Trade
  notifications : List AppNotification
  message : Option String
  error : Option String
deriving DecidableEq

namespace BookStore

/-- `proposeTrade` of `frontend/src/store/bookStore.ts`: requires a signed-in
user, `POST`s to `/trades` (modelled by calling the backend `createTrade`
directly), and on success appends the returned trade and a local notification
of type `trade_proposal` targeted at the returned trade's receiver; on failure
only sets the store's error message. -/
def proposeTrade (db : DB) (store : StoreState) (currentUser : Option Nat)
    (proposerBookId receiverBookId : Option Nat) (message : Option String) :
    DB × StoreState :=
  match currentUser with
  | none => (db, { store with message := some "Please sign in to propose trades" })
  | some uid =>
    match TradeController.createTrade db uid proposerBookId receiverBookId message with
    | (.ok data, db1) =>
      (db1,
        { store with
            trades := store.trades ++ [data]
            message := some "Trade proposed successfully"
            notifications := store.notifications ++
              [{ userId := data.receiver
                 type := .trade_proposal
                 message := "New trade proposal for your book"
                 isRead := false
                 relatedId := some data.id }] })
    | (.error _, db1) =>
      (db1, { store with error := some "Failed to propose trade" })

/-- `updateTradeStatus` of `frontend/src/store/bookStore.ts`: `PUT`s the new
status (modelled by calling the backend `updateTradeStatus`, the current user
being the authenticated caller), and on success replaces the trade in the
store and appends a local notification targeted at the returned trade's
initiator, of type `trade_accepted` when the requested status string is
`accepted` and `trade_rejected` otherwise; on failure only sets the store's
error message. -/
def updateTradeStatus (db : DB) (store : StoreState) (currentUser : Nat)
    (tradeId : Nat) (status : String) : DB × StoreState :=
  match TradeController.updateTradeStatus db currentUser tradeId status with
  | (.ok data, db1) =>
    (db1,
      { store with
          trades := store.trades.map fun t => if t.id = tradeId then data else t
          message := some ("Trade " ++ status ++ " successfully")
          notifications := store.notifications ++
            [{ userId := data.initiator
               type := if status = "accepted" then .trade_accepted else .trade_rejected
               message := "Your trade proposal has been " ++ status
               isRead := false
               relatedId := some tradeId }] })
  | (.error _, db1) =>
    (db1, { store with error := some "Failed to update trade status" })

end BookStore

/-!
Concrete stores used as counterexample inputs and witness inputs. Ids: users
1, 2, 3; books 10, 20, 30 (owned by users 1, 2, 3 respectively); trades 5, 6.
-/

/-- Two pending trades both requesting book 20: the double-booking race. -/
def dbDouble : DB :=
  { books := [⟨10, "A", "aa", 1, true⟩, ⟨20, "B", "bb", 2, true⟩,
              ⟨30, "C", "cc", 3, true⟩]
    trades := [⟨5, 1, 2, 10, 20, .pending, none, false⟩,
               ⟨6, 3, 2, 30, 20, .pending, none, false⟩]
    nextTradeId := 7 }

/-- The store after user 2 accepted trade 5 in `dbDouble`; both of trade 5's
books are now unavailable and trade 6 still requests book 20. -/
def dbDouble1 : DB := (TradeController.updateTradeStatus dbDouble 2 5 "accepted").2

/-- A single trade that already reached the terminal status `completed`. -/
def dbCompleted : DB :=
  { books := [⟨10, "A", "aa", 2, true⟩, ⟨20, "B", "bb", 1, true⟩]
    trades := [⟨5, 1, 2, 10, 20, .completed, none, true⟩]
    nextTradeId := 6 }

/-- A single trade that already reached the terminal status `rejected`. -/
def dbRejected : DB :=
  { books := [⟨10, "A", "aa", 1, true⟩, ⟨20, "B", "bb", 2, true⟩]
    trades := [⟨5, 1, 2, 10, 20, .rejected, none, true⟩]
    nextTradeId := 6 }

/-- A single pending trade, initiator 1, receiver 2. -/
def dbPending : DB :=
  { books := [⟨10, "A", "aa", 1, true⟩, ⟨20, "B", "bb", 2, true⟩]
    trades := [⟨5, 1, 2, 10, 20, .pending, none, false⟩]
    nextTradeId := 6 }

/-- Requested book 20 available, offered book 10 unavailable. -/
def dbOfferedUnavailable : DB :=
  { books := [⟨10, "A", "aa", 1, false⟩, ⟨20, "B", "bb", 2, true⟩]
    trades := []
    nextTradeId := 5 }

/-- A single accepted trade with both books present and unavailable. -/
def dbAccepted : DB :=
  { books := [⟨10, "A", "aa", 1, false⟩, ⟨20, "B", "bb", 2, false⟩]
    trades := [⟨5, 1, 2, 10, 20, .accepted, none, true⟩]
    nextTradeId := 6 }

/-- An accepted trade 5 next to an already-completed trade 9. -/
def dbAcceptedAndCompleted : DB :=
  { books := [⟨10, "A", "aa", 1, false⟩, ⟨20, "B", "bb", 2, false⟩]
    trades := [⟨5, 1, 2, 10, 20, .pending, none, false⟩,
               ⟨9, 1, 3, 10, 30, .completed, none, true⟩]
    nextTradeId := 10 }

/-- Trades received by user 2 in mixed `isSeen` states. -/
def dbSeenMix : DB :=
  { books := [⟨10, "A", "aa", 1, true⟩, ⟨20, "B", "bb", 2, true⟩]
    trades := [⟨5, 1, 2, 10, 20, .pending, none, false⟩,
               ⟨6, 1, 2, 10, 20, .rejected, none, true⟩,
               ⟨7, 2, 1, 20, 10, .pending, none, false⟩]
    nextTradeId := 8 }

/-- Book 30 is owned by user 3, a third party: user 1 offers it anyway. -/
def dbThirdParty : DB :=
  { books := [⟨10, "A", "aa", 1, true⟩, ⟨20, "B", "bb", 2, true⟩,
              ⟨30, "C", "cc", 3, true⟩]
    trades := []
    nextTradeId := 7 }

/-- An empty frontend store state. -/
def storeEmpty : StoreState :=
  { trades := [], notifications := [], message := none, error := none }

/-!
Helper lemmas about the list-backed store operations.
-/

/-- `find?` commutes with a `map` whose function preserves the predicate. -/
theorem find?_map_pred {α : Type} (g : α → α) (p : α → Bool)
    (h : ∀ a, p (g a) = p a) (l : List α) :
    (l.map g).find? p = (l.find? p).map g := by
  rw [List.find?_map]
  have hpg : (p ∘ g) = p := funext h
  rw [hpg]

/-- Looking a book up after a single-document update: the update function is
applied exactly to the looked-up record when its id matches. -/
theorem findBook_findByIdAndUpdateBook (db : DB) (i j : Nat) (f : Book → Book)
    (hf : ∀ b, (f b).id = b.id) :
    findBook (findByIdAndUpdateBook db i f) j =
      (findBook db j).map fun b => if b.id = i then f b else b := by
  unfold findBook findByIdAndUpdateBook
  apply find?_map_pred
  intro b
  by_cases hb : b.id = i
  · simp [hb, hf]
  · simp [hb]

/-- Looking a trade up after `saveTrade`. -/
theorem findTrade_saveTrade (db : DB) (t : Trade) (j : Nat) :
    findTrade (saveTrade db t) j =
      (findTrade db j).map fun t0 => if t0.id = t.id then t else t0 := by
  unfold findTrade saveTrade
  apply find?_map_pred
  intro t0
  by_cases h0 : t0.id = t.id
  · simp [h0]
  · simp [h0]

/-- `saveTrade` does not touch the books collection. -/
theorem findBook_saveTrade (db : DB) (t : Trade) (j : Nat) :
    findBook (saveTrade db t) j = findBook db j := rfl

/-- Book updates do not touch the trades collection. -/
theorem findTrade_findByIdAndUpdateBook (db : DB) (i j : Nat) (f : Book → Book) :
    findTrade (findByIdAndUpdateBook db i f) j = findTrade db j := rfl

/-- A successful `find?` pins the id of the found book. -/
theorem findBook_id (db : DB) (j : Nat) (b : Book)
    (h : findBook db j = some b) : b.id = j := by
  have := List.find?_some h
  exact of_decide_eq_true this

/-- A successful `find?` pins the id of the found trade. -/
theorem findTrade_id (db : DB) (j : Nat) (t : Trade)
    (h : findTrade db j = some t) : t.id = j := by
  have := List.find?_some h
  exact of_decide_eq_true this

/-!
Claim C1 — double-booking guard at transition time.
-/

/-- C1 counterexample: in `dbDouble`, trade 5 is accepted first, leaving book
20 with `isAvailable = false` while trade 6 (still pending) also requests book
20. The claim demands that accepting trade 6 now fail with `ConflictError`;
instead `updateTradeStatus` succeeds, and afterwards trades 5 and 6 are both
`accepted` while both referencing book 20. -/
theorem doubleBooking_second_accept_succeeds :
    (TradeController.updateTradeStatus dbDouble 2 5 "accepted").1 =
      .ok ⟨5, 1, 2, 10, 20, .accepted, none, true⟩ ∧
    (findBook dbDouble1 20).map Book.isAvailable = some false ∧
    (findTrade dbDouble1 6).map Trade.status = some .pending ∧
    (TradeController.updateTradeStatus dbDouble1 2 6 "accepted").1 =
      .ok ⟨6, 3, 2, 30, 20, .accepted, none, true⟩ ∧
    (findTrade (TradeController.updateTradeStatus dbDouble1 2 6 "accepted").2 5).map
      Trade.status = some .accepted ∧
    (findTrade (TradeController.updateTradeStatus dbDouble1 2 6 "accepted").2 6).map
      Trade.status = some .accepted := by
  decide

/-- C1 (amended): `updateTradeStatus` re-validates nothing at transition time:
whenever the trade exists and the actor is its receiver, accepting succeeds,
regardless of the books' availability and of the trade's current status, so a
book may end up referenced by two accepted trades. -/
theorem updateTradeStatus_accept_ignores_availability
    (db : DB) (u tid : Nat) (t : Trade)
    (ht : findTrade db tid = some t) (hr : t.receiver = u) :
    (TradeController.updateTradeStatus db u tid "accepted").1 =
      .ok { t with status := .accepted, isSeen := true } := by
  simp [TradeController.updateTradeStatus, ht, hr,
    show ("accepted" ∈ TradeController.validStatuses) by decide,
    show statusOfString "accepted" = some TradeStatus.accepted by decide]

/-- Witness for `updateTradeStatus_accept_ignores_availability`: trade 6 of
`dbDouble1` requests a book that is already unavailable, yet accepting it
succeeds. -/
theorem updateTradeStatus_accept_ignores_availability_witness :
    (TradeController.updateTradeStatus dbDouble1 2 6 "accepted").1 =
      .ok { (⟨6, 3, 2, 30, 20, .pending, none, false⟩ : Trade) with
            status := TradeStatus.accepted, isSeen := true } :=
  updateTradeStatus_accept_ignores_availability dbDouble1 2 6
    ⟨6, 3, 2, 30, 20, .pending, none, false⟩ (by decide) rfl

/-!
Claim C2 — non-pending trades and `updateTradeStatus`.
-/

/-- C2 counterexample: trade 5 of `dbCompleted` has status `completed`, yet
`updateTradeStatus` by its receiver moves it to `rejected` and returns
success, where the claim demands a `ConflictError`. -/
theorem updateTradeStatus_moves_completed_trade :
    (findTrade dbCompleted 5).map Trade.status = some .completed ∧
    (TradeController.updateTradeStatus dbCompleted 2 5 "rejected").1 =
      .ok ⟨5, 1, 2, 10, 20, .rejected, none, true⟩ := by
  decide

/-- C2 (amended): `updateTradeStatus` never inspects the trade's current
status: for any existing trade whose receiver is the actor and any requested
status among accepted, rejected, cancelled, the transition succeeds regardless
of the current status (pending, completed, rejected, or cancelled alike). -/
theorem updateTradeStatus_ignores_current_status
    (db : DB) (u tid : Nat) (t : Trade) (s : String) (st : TradeStatus)
    (hmem : s ∈ TradeController.validStatuses)
    (hs : statusOfString s = some st)
    (ht : findTrade db tid = some t) (hr : t.receiver = u) :
    (TradeController.updateTradeStatus db u tid s).1 =
      .ok { t with status := st, isSeen := true } := by
  simp [TradeController.updateTradeStatus, hmem, hs, ht, hr]

/-- Witness for `updateTradeStatus_ignores_current_status`: the completed
trade of `dbCompleted` is moved to `cancelled`. -/
theorem updateTradeStatus_ignores_current_status_witness :
    (TradeController.updateTradeStatus dbCompleted 2 5 "cancelled").1 =
      .ok { (⟨5, 1, 2, 10, 20, .completed, none, true⟩ : Trade) with
            status := TradeStatus.cancelled, isSeen := true } :=
  updateTradeStatus_ignores_current_status dbCompleted 2 5
    ⟨5, 1, 2, 10, 20, .completed, none, true⟩ "cancelled" .cancelled
    (by decide) (by decide) rfl rfl

/-!
Claim C5 — which actor may perform which transition.
-/

/-- C5 counterexample: on the pending trade of `dbPending`, the initiator
(user 1) attempting `cancelled` is refused with the 403 authorization error,
although the claim says the initiator's cancellation must succeed; and the
receiver (user 2) cancelling succeeds, although the claim says the receiver
attempting cancel must fail with `AuthorizationError`. -/
theorem initiator_cannot_cancel :
    (findTrade dbPending 5).map Trade.status = some .pending ∧
    (TradeController.updateTradeStatus dbPending 1 5 "cancelled").1 =
      .error ⟨403, "Not authorized to update this trade"⟩ ∧
    (TradeController.updateTradeStatus dbPending 2 5 "cancelled").1 =
      .ok ⟨5, 1, 2, 10, 20, .cancelled, none, true⟩ := by
  decide

/-- C5 (amended): for every valid requested status (accepted, rejected, and
also cancelled) the actor must be the trade's receiver: any other actor —
including the initiator attempting to cancel — fails with the 403
authorization error, and the receiver always succeeds. -/
theorem updateTradeStatus_receiver_only
    (db : DB) (u tid : Nat) (s : String) (t : Trade)
    (hmem : s ∈ TradeController.validStatuses)
    (ht : findTrade db tid = some t) :
    (¬ t.receiver = u →
      (TradeController.updateTradeStatus db u tid s).1 =
        .error ⟨403, "Not authorized to update this trade"⟩) ∧
    (t.receiver = u →
      ∃ t1, (TradeController.updateTradeStatus db u tid s).1 = .ok t1) := by
  have hsome : ∃ st, statusOfString s = some st := by
    simp only [TradeController.validStatuses, List.mem_cons, List.mem_singleton,
      List.not_mem_nil, or_false] at hmem
    rcases hmem with h | h | h
    · exact h ▸ ⟨.accepted, by decide⟩
    · exact h ▸ ⟨.rejected, by decide⟩
    · exact h ▸ ⟨.cancelled, by decide⟩
  rcases hsome with ⟨st, hs⟩
  constructor
  · intro hne
    simp [TradeController.updateTradeStatus, hmem, ht, hne]
  · intro hr
    exact ⟨{ t with status := st, isSeen := true },
      by simp [TradeController.updateTradeStatus, hmem, hs, ht, hr]⟩

/-- Witness for `updateTradeStatus_receiver_only`: the initiator of the
pending trade in `dbPending` cannot cancel it. -/
theorem updateTradeStatus_receiver_only_witness :
    (TradeController.updateTradeStatus dbPending 1 5 "cancelled").1 =
      .error ⟨403, "Not authorized to update this trade"⟩ :=
  (updateTradeStatus_receiver_only dbPending 1 5 "cancelled"
    ⟨5, 1, 2, 10, 20, .pending, none, false⟩ (by decide) rfl).1 (by decide)

/-!
Claim C3 — failed transitions are all-or-nothing.
-/

/-- C3: whenever `updateTradeStatus` or `completeTrade` responds with an error
(of any of the taxonomy's kinds), the returned store equals the input store:
both controllers perform every check before the first write, so a failed
transition leaves the Trade record and both Book records exactly as they
were. -/
theorem failed_transitions_leave_db_unchanged
    (db : DB) (u tid : Nat) (s : String) :
    (∀ e, (TradeController.updateTradeStatus db u tid s).1 = .error e →
      (TradeController.updateTradeStatus db u tid s).2 = db) ∧
    (∀ e, (TradeController.completeTrade db u tid).1 = .error e →
      (TradeController.completeTrade db u tid).2 = db) := by
  constructor
  · unfold TradeController.updateTradeStatus
    split
    · intro e _; rfl
    · split
      · intro e _; rfl
      · split
        · intro e _; rfl
        · intro e he; exact Except.noConfusion he
  · unfold TradeController.completeTrade
    split
    · intro e _; rfl
    · split
      · intro e _; rfl
      · split
        · intro e _; rfl
        · intro e he; exact Except.noConfusion he

/-- Witness for `failed_transitions_leave_db_unchanged`: both operations fail
on the accepted trade of `dbAccepted` when called by the outsider user 3, and
the store is returned unchanged. -/
theorem failed_transitions_leave_db_unchanged_witness :
    (TradeController.updateTradeStatus dbAccepted 3 5 "rejected").2 = dbAccepted ∧
    (TradeController.completeTrade dbAccepted 3 5).2 = dbAccepted :=
  ⟨(failed_transitions_leave_db_unchanged dbAccepted 3 5 "rejected").1
      ⟨403, "Not authorized to update this trade"⟩ (by decide),
   (failed_transitions_leave_db_unchanged dbAccepted 3 5 "rejected").2
      ⟨403, "Not authorized to complete this trade"⟩ (by decide)⟩

/-!
Claim C4 — the status state machine.
-/

/-- C4 counterexample: the trade of `dbRejected` already reached the terminal
status `rejected`, yet its receiver moves it to `accepted` — an edge the
claimed state machine forbids (no transition out of `rejected`, and
`rejected → accepted` is not among the allowed edges). -/
theorem rejected_trade_moves_to_accepted :
    (findTrade dbRejected 5).map Trade.status = some .rejected ∧
    (TradeController.updateTradeStatus dbRejected 2 5 "accepted").1 =
      .ok ⟨5, 1, 2, 10, 20, .accepted, none, true⟩ := by
  decide

/-- C4 (amended): the half of the claim about `completed` does hold:
`updateTradeStatus` can never produce the status `completed` (every trade that
is `completed` afterwards was already `completed` before), and `completeTrade`
succeeds only on a trade whose current status is `accepted`; but the other
edges are not enforced — `updateTradeStatus` moves a trade out of any current
status, including the terminal ones, as long as the actor is the receiver. -/
theorem completed_status_provenance
    (db : DB) (u tid : Nat) (s : String) :
    (∀ t1, t1 ∈ (TradeController.updateTradeStatus db u tid s).2.trades →
      t1.status = .completed →
      ∃ t0, t0 ∈ db.trades ∧ t0.id = t1.id ∧ t0.status = .completed) ∧
    (∀ r, (TradeController.completeTrade db u tid).1 = .ok r →
      ∃ t0, findTrade db tid = some t0 ∧ t0.status = .accepted) := by
  constructor
  · unfold TradeController.updateTradeStatus
    split
    · intro t1 h1 hc; exact ⟨t1, h1, rfl, hc⟩
    · rename_i hmem
      rw [not_not] at hmem
      have hvalid : s = "accepted" ∨ s = "rejected" ∨ s = "cancelled" := by
        simpa [TradeController.validStatuses] using hmem
      split
      · intro t1 h1 hc; exact ⟨t1, h1, rfl, hc⟩
      · rename_i hopt trade hfound
        split
        · intro t1 h1 hc; exact ⟨t1, h1, rfl, hc⟩
        · rename_i hrecv
          intro t1 h1 hc
          dsimp only [saveTrade, findByIdAndUpdateBook] at h1
          split at h1 <;> simp only [List.mem_map] at h1 <;>
            obtain ⟨t0, ht0, hmap⟩ := h1 <;>
            rcases hcase : decide (t0.id = trade.id) with _ | _
          case' left.isFalse.h_2.isFalse.isTrue.intro.intro.false
             | left.isFalse.h_2.isFalse.isFalse.intro.intro.false =>
            rw [if_neg (of_decide_eq_false hcase)] at hmap
            subst hmap
            exact ⟨t0, ht0, rfl, hc⟩
          case' left.isFalse.h_2.isFalse.isTrue.intro.intro.true
             | left.isFalse.h_2.isFalse.isFalse.intro.intro.true =>
            rw [if_pos (of_decide_eq_true hcase)] at hmap
            subst hmap
            dsimp only at hc
            exfalso
            rcases hvalid with h | h | h <;> subst h
            · rw [show statusOfString "accepted" = some TradeStatus.accepted from
                by decide, Option.getD_some] at hc
              exact TradeStatus.noConfusion hc
            · rw [show statusOfString "rejected" = some TradeStatus.rejected from
                by decide, Option.getD_some] at hc
              exact TradeStatus.noConfusion hc
            · rw [show statusOfString "cancelled" = some TradeStatus.cancelled from
                by decide, Option.getD_some] at hc
              exact TradeStatus.noConfusion hc
  · unfold TradeController.completeTrade
    split
    · intro r hr; exact Except.noConfusion hr
    · rename_i hopt trade hfound
      split
      · intro r hr; exact Except.noConfusion hr
      · split
        · intro r hr; exact Except.noConfusion hr
        · rename_i hpart hacc
          intro r _
          exact ⟨trade, hfound, not_not.mp hacc⟩

/-- Witness for `completed_status_provenance`: in `dbAcceptedAndCompleted`,
after the receiver accepts trade 5, the only completed trade in the store is
trade 9, which was completed already; and the successful completion of the
accepted trade of `dbAccepted` implies that trade was accepted before. -/
theorem completed_status_provenance_witness :
    (∃ t0, t0 ∈ dbAcceptedAndCompleted.trades ∧
      t0.id = (⟨9, 1, 3, 10, 30, TradeStatus.completed, none, true⟩ : Trade).id ∧
      t0.status = .completed) ∧
    (∃ t0, findTrade dbAccepted 5 = some t0 ∧ t0.status = .accepted) :=
  ⟨(completed_status_provenance dbAcceptedAndCompleted 2 5 "accepted").1
      ⟨9, 1, 3, 10, 30, .completed, none, true⟩ (by decide) rfl,
   (completed_status_provenance dbAccepted 1 5 "accepted").2 5 (by decide)⟩

/-!
Claim C6 — `createTrade` results.
-/

/-- C6 counterexample: in `dbOfferedUnavailable` the requested book exists and
the offered book has `isAvailable = false`; the claim demands a
`ConflictError` (the taxonomy's 409), but `createTrade` fails with the 500
response produced by the model hook's generic `Error`. -/
theorem createTrade_unavailable_book_gives_500 :
    (TradeController.createTrade dbOfferedUnavailable 1 (some 10) (some 20) none).1 =
      .error ⟨500, "One or both books are not available for trade"⟩ ∧
    ¬ (ApiErr.status ⟨500, "One or both books are not available for trade"⟩ = 409) := by
  decide

/-- C6 (amended): `createTrade` fails with the 404 not-found response when the
requested book is missing; when both books exist and either is unavailable it
fails with the 500 response carrying the pre-save hook's message (not a
conflict error); and when both books exist and are available it returns a new
trade with status `pending`, `isSeen = false`, whose receiver is the requested
book's current owner. -/
theorem createTrade_characterization
    (db : DB) (u bo br : Nat) (msg : Option String) :
    (findBook db br = none →
      (TradeController.createTrade db u (some bo) (some br) msg).1 =
        .error ⟨404, "Requested book not found"⟩) ∧
    (∀ obk rbk, findBook db bo = some obk → findBook db br = some rbk →
      (obk.isAvailable = false ∨ rbk.isAvailable = false) →
      (TradeController.createTrade db u (some bo) (some br) msg).1 =
        .error ⟨500, "One or both books are not available for trade"⟩) ∧
    (∀ obk rbk, findBook db bo = some obk → findBook db br = some rbk →
      obk.isAvailable = true → rbk.isAvailable = true →
      (TradeController.createTrade db u (some bo) (some br) msg).1 =
        .ok { id := db.nextTradeId, initiator := u, receiver := rbk.owner,
              bookOffered := bo, bookRequested := br, status := .pending,
              message := msg, isSeen := false }) := by
  refine ⟨fun hmiss => ?_, fun obk rbk hbo hbr hun => ?_, fun obk rbk hbo hbr hoa hra => ?_⟩
  · simp [TradeController.createTrade, hmiss]
  · simp [TradeController.createTrade, tradePreSaveNewValidation, hbo, hbr, hun]
  · simp [TradeController.createTrade, tradePreSaveNewValidation, hbo, hbr, hoa, hra]

/-- Witness for `createTrade_characterization`: in `dbThirdParty`, requesting
book 20 while offering book 10 (both available) creates the pending trade 7
with receiver 2, the owner of book 20. -/
theorem createTrade_characterization_witness :
    (TradeController.createTrade dbThirdParty 1 (some 10) (some 20) none).1 =
      .ok { id := 7, initiator := 1, receiver := 2, bookOffered := 10,
            bookRequested := 20, status := TradeStatus.pending, message := none,
            isSeen := false } :=
  (createTrade_characterization dbThirdParty 1 10 20 none).2.2
    ⟨10, "A", "aa", 1, true⟩ ⟨20, "B", "bb", 2, true⟩ rfl rfl rfl rfl

/-!
Claim C7 — completion swaps ownership and restores availability.
-/

/-- C7: completing an accepted trade as either participant succeeds, and in
the resulting store the offered book belongs to the receiver, the requested
book belongs to the initiator, both are available again, and the trade is
`completed`. (The two books are assumed distinct — a trade offering the very
book it requests would make the two ownership clauses contradict each
other.) -/
theorem completeTrade_swaps_ownership
    (db : DB) (u tid : Nat) (t : Trade) (obk rbk : Book)
    (ht : findTrade db tid = some t)
    (hacc : t.status = .accepted)
    (hu : u = t.initiator ∨ u = t.receiver)
    (hne : ¬ t.bookOffered = t.bookRequested)
    (hbo : findBook db t.bookOffered = some obk)
    (hbr : findBook db t.bookRequested = some rbk) :
    (TradeController.completeTrade db u tid).1 = .ok t.id ∧
    findBook (TradeController.completeTrade db u tid).2 t.bookOffered =
      some { obk with owner := t.receiver, isAvailable := true } ∧
    findBook (TradeController.completeTrade db u tid).2 t.bookRequested =
      some { rbk with owner := t.initiator, isAvailable := true } ∧
    findTrade (TradeController.completeTrade db u tid).2 tid =
      some { t with status := .completed } := by
  have hobid : obk.id = t.bookOffered := findBook_id db t.bookOffered obk hbo
  have hrbid : rbk.id = t.bookRequested := findBook_id db t.bookRequested rbk hbr
  refine ⟨?_, ?_, ?_, ?_⟩
  · simp [TradeController.completeTrade, ht, hu, hacc]
  · simp only [TradeController.completeTrade, ht, hu, hacc]
    simp only [not_true, if_false]
    rw [findBook_findByIdAndUpdateBook _ t.bookRequested t.bookOffered
        (fun b => { b with owner := t.initiator, isAvailable := true })
        (fun b => rfl),
      findBook_findByIdAndUpdateBook _ t.bookOffered t.bookOffered
        (fun b => { b with owner := t.receiver, isAvailable := true })
        (fun b => rfl),
      findBook_saveTrade, hbo]
    simp [hobid, hne]
  · simp only [TradeController.completeTrade, ht, hu, hacc]
    simp only [not_true, if_false]
    rw [findBook_findByIdAndUpdateBook _ t.bookRequested t.bookRequested
        (fun b => { b with owner := t.initiator, isAvailable := true })
        (fun b => rfl),
      findBook_findByIdAndUpdateBook _ t.bookOffered t.bookRequested
        (fun b => { b with owner := t.receiver, isAvailable := true })
        (fun b => rfl),
      findBook_saveTrade, hbr]
    have hne2 : ¬ t.bookRequested = t.bookOffered := fun h => hne h.symm
    simp [hrbid, hne2]
  · simp only [TradeController.completeTrade, ht, hu, hacc]
    simp only [not_true, if_false]
    rw [findTrade_findByIdAndUpdateBook, findTrade_findByIdAndUpdateBook,
      findTrade_saveTrade, ht]
    simp

/-- Witness for `completeTrade_swaps_ownership`: the initiator completes the
accepted trade of `dbAccepted`; books 10 and 20 change owners and become
available, and trade 5 is completed. -/
theorem completeTrade_swaps_ownership_witness :
    (TradeController.completeTrade dbAccepted 1 5).1 = .ok 5 ∧
    findBook (TradeController.completeTrade dbAccepted 1 5).2 10 =
      some ⟨10, "A", "aa", 2, true⟩ ∧
    findBook (TradeController.completeTrade dbAccepted 1 5).2 20 =
      some ⟨20, "B", "bb", 1, true⟩ ∧
    findTrade (TradeController.completeTrade dbAccepted 1 5).2 5 =
      some ⟨5, 1, 2, 10, 20, TradeStatus.completed, none, true⟩ :=
  completeTrade_swaps_ownership dbAccepted 1 5
    ⟨5, 1, 2, 10, 20, .accepted, none, true⟩ ⟨10, "A", "aa", 1, false⟩
    ⟨20, "B", "bb", 2, false⟩ rfl rfl (Or.inl rfl) (by decide) rfl rfl

/-!
Claim C8 — notification events of the trade transitions.
-/

/-- C8 counterexample: running the full trade-proposal path (frontend store
action calling the backend `createTrade`) on `dbThirdParty` produces exactly
one notification, of type `trade_proposal`, not `trade_request`; the backend
controller itself emits no event at all (its result carries only the response
and the new store). -/
theorem proposeTrade_emits_trade_proposal_not_trade_request :
    (BookStore.proposeTrade dbThirdParty storeEmpty (some 1) (some 10) (some 20)
        none).2.notifications =
      [{ userId := 2, type := NotificationType.trade_proposal,
         message := "New trade proposal for your book",
         isRead := false, relatedId := some 7 }] ∧
    ¬ (NotificationType.trade_proposal = NotificationType.trade_request) := by
  decide

/-- C8 (amended): the backend trade operations emit no notification events;
the notifications that exist are appended locally by the frontend store: on a
successful `createTrade`, one of type `trade_proposal` targeted at the new
trade's receiver, and on a successful `updateTradeStatus`, one targeted at the
trade's initiator whose type is `trade_accepted` when the requested status is
`accepted` and `trade_rejected` otherwise (including `cancelled`); nothing
produces a `trade_completed` notification. -/
theorem store_notifications_on_trade_actions
    (db : DB) (store : StoreState) (uid tid : Nat) (pb rb : Option Nat)
    (msg : Option String) (s : String) :
    (∀ data db1, TradeController.createTrade db uid pb rb msg = (.ok data, db1) →
      (BookStore.proposeTrade db store (some uid) pb rb msg).2.notifications =
        store.notifications ++
          [{ userId := data.receiver, type := .trade_proposal,
             message := "New trade proposal for your book",
             isRead := false, relatedId := some data.id }]) ∧
    (∀ data db1, TradeController.updateTradeStatus db uid tid s = (.ok data, db1) →
      (BookStore.updateTradeStatus db store uid tid s).2.notifications =
        store.notifications ++
          [{ userId := data.initiator,
             type := if s = "accepted" then .trade_accepted else .trade_rejected,
             message := "Your trade proposal has been " ++ s,
             isRead := false, relatedId := some tid }]) := by
  constructor
  · intro data db1 heq
    simp [BookStore.proposeTrade, heq]
  · intro data db1 heq
    simp [BookStore.updateTradeStatus, heq]

/-- Witness for `store_notifications_on_trade_actions`: the concrete
trade-proposal run on `dbThirdParty`. -/
theorem store_notifications_on_trade_actions_witness :
    (BookStore.proposeTrade dbThirdParty storeEmpty (some 1) (some 10) (some 20)
        none).2.notifications =
      storeEmpty.notifications ++
        [{ userId := 2, type := NotificationType.trade_proposal,
           message := "New trade proposal for your book",
           isRead := false, relatedId := some 7 }] :=
  (store_notifications_on_trade_actions dbThirdParty storeEmpty 1 0 (some 10)
      (some 20) none "accepted").1
    ⟨7, 1, 2, 10, 20, .pending, none, false⟩
    { dbThirdParty with
        trades := [⟨7, 1, 2, 10, 20, .pending, none, false⟩]
        nextTradeId := 8 }
    (by decide)

/-!
Claim C9 — idempotence of mark-seen.
-/

/-- C9: `markTradesAsSeen` is idempotent: a second call returns the same store
as the first, reports success (with zero modified documents), and after the
first call every trade received by the user — the pending ones in particular —
has `isSeen = true`. -/
theorem markTradesAsSeen_idempotent (db : DB) (u : Nat) :
    (TradeController.markTradesAsSeen
        (TradeController.markTradesAsSeen db u).2 u).2 =
      (TradeController.markTradesAsSeen db u).2 ∧
    (TradeController.markTradesAsSeen
        (TradeController.markTradesAsSeen db u).2 u).1 = .ok 0 ∧
    (∀ t, t ∈ (TradeController.markTradesAsSeen db u).2.trades →
      t.receiver = u → t.isSeen = true) := by
  have hupd : ∀ t : Trade,
      TradeController.markSeenUpdate u (TradeController.markSeenUpdate u t) = TradeController.markSeenUpdate u t := by
    intro t
    by_cases hc : t.receiver = u ∧ t.isSeen = false
    · simp [TradeController.markSeenUpdate, hc]
    · simp [TradeController.markSeenUpdate, hc]
  have hseen : ∀ t : Trade,
      (TradeController.markSeenUpdate u t).receiver = u → (TradeController.markSeenUpdate u t).isSeen = true := by
    intro t
    by_cases hc : t.receiver = u ∧ t.isSeen = false
    · simp [TradeController.markSeenUpdate, hc]
    · simp only [TradeController.markSeenUpdate, if_neg hc]
      intro hr
      cases hb : t.isSeen
      · exact absurd ⟨hr, hb⟩ hc
      · rfl
  refine ⟨?_, ?_, ?_⟩
  · simp only [TradeController.markTradesAsSeen, List.map_map]
    have hcomp : (TradeController.markSeenUpdate u ∘ TradeController.markSeenUpdate u) = TradeController.markSeenUpdate u :=
      funext hupd
    rw [hcomp]
  · simp only [TradeController.markTradesAsSeen]
    have hz : (db.trades.map (TradeController.markSeenUpdate u)).countP
        (fun t => decide (t.receiver = u ∧ t.isSeen = false)) = 0 := by
      rw [List.countP_eq_zero]
      intro a ha hpa
      simp only [List.mem_map] at ha
      obtain ⟨b, _, rfl⟩ := ha
      obtain ⟨hrec, hfalse⟩ := of_decide_eq_true hpa
      rw [hseen b hrec] at hfalse
      exact Bool.noConfusion hfalse
    rw [hz]
  · intro t htmem hr
    simp only [TradeController.markTradesAsSeen, List.mem_map] at htmem
    obtain ⟨b, _, rfl⟩ := htmem
    exact hseen b hr

/-- Witness for `markTradesAsSeen_idempotent` at `dbSeenMix`, user 2: the
second call is a no-op reporting zero modifications, and the previously unseen
pending trade 5 received by user 2 is seen after the first call. -/
theorem markTradesAsSeen_idempotent_witness :
    (TradeController.markTradesAsSeen
        (TradeController.markTradesAsSeen dbSeenMix 2).2 2).2 =
      (TradeController.markTradesAsSeen dbSeenMix 2).2 ∧
    (TradeController.markTradesAsSeen
        (TradeController.markTradesAsSeen dbSeenMix 2).2 2).1 = .ok 0 ∧
    Trade.isSeen ⟨5, 1, 2, 10, 20, TradeStatus.pending, none, true⟩ = true :=
  ⟨(markTradesAsSeen_idempotent dbSeenMix 2).1,
   (markTradesAsSeen_idempotent dbSeenMix 2).2.1,
   (markTradesAsSeen_idempotent dbSeenMix 2).2.2
     ⟨5, 1, 2, 10, 20, .pending, none, true⟩ (by decide) rfl⟩

/-!
Claim C10 — no ownership check on the offered book.
-/

/-- C10: `createTrade` never compares the offered book's owner with the
initiator: in `dbThirdParty`, book 30 belongs to user 3 — neither the
initiator (user 1) nor the requested book's owner (user 2) — both books exist
and are available, and the creation nevertheless succeeds with a new pending
trade offering that third party's book. -/
theorem createTrade_no_ownership_check :
    (findBook dbThirdParty 30).map Book.owner = some 3 ∧
    (findBook dbThirdParty 20).map Book.owner = some 2 ∧
    (findBook dbThirdParty 30).map Book.isAvailable = some true ∧
    (findBook dbThirdParty 20).map Book.isAvailable = some true ∧
    ¬ ((3 : Nat) = 1) ∧ ¬ ((3 : Nat) = 2) ∧
    (TradeController.createTrade dbThirdParty 1 (some 30) (some 20) none).1 =
      .ok ⟨7, 1, 2, 30, 20, TradeStatus.pending, none, false⟩ := by
  decide
